import Mathlib

/-!
# Verification of the cortex multi-agent coordination layer

Shallow embedding of the coordination code: the per-agent response
arbitration (`ConversationCoordinator.shouldRespond` together with
`CognitiveEngine.shouldRespond`), the emotional state store (`SoulState`),
the relationship ledger (`Relationship`), the leader tick scheduler
(`Agent._startThoughtTick` / `_processThoughtTick` / `queueContext`) and the
command relay (`CommandRelay`).

JavaScript numbers are modelled as `ℚ`, JS strings as Lean `String`
(character lists for the substring primitives), `Math.random()` draws and
`Date.now()` readings are passed in as explicit parameters, and the external
decision-oracle reply is an `Option String` (`none` = transport failure,
matching `query` returning `null`).
-/

namespace Cortex

/-! ## JS string and truthiness primitives -/

/-- Lowercase every character (ASCII, matching `toLowerCase` on the
ASCII-only strings this code compares). -/
def lowerL (l : List Char) : List Char := l.map Char.toLower

/-- Source `lpre needle hay` : is `needle` a prefix of `hay` (char-exact)? -/
def lpre : List Char → List Char → Bool
  | [], _ => true
  | _ :: _, [] => false
  | a :: as, b :: bs => a == b && lpre as bs

/-- Source `containsSub needle hay` : JS `hay.includes(needle)` (substring test). -/
def containsSub (needle : List Char) : List Char → Bool
  | [] => lpre needle []
  | c :: rest => lpre needle (c :: rest) || containsSub needle rest

/-- JS `hay.includes(sub)` on strings. -/
def incl (hay sub : String) : Bool := containsSub sub.data hay.data

/-- ASCII whitespace (the characters `trim` strips on the inputs involved). -/
def isWS (c : Char) : Bool := c.isWhitespace

/-- JS `String.prototype.trim` on a character list. -/
def jsTrimL (l : List Char) : List Char :=
  ((l.dropWhile isWS).reverse.dropWhile isWS).reverse

/-- Source `s.toLowerCase().trim()` as a character list. -/
def trimLower (s : String) : List Char := jsTrimL (lowerL s.data)

/-- JS `x || d` for an optionally-present numeric field
(`undefined` and `0` are falsy). -/
def jsOrQ (x : Option ℚ) (d : ℚ) : ℚ :=
  match x with
  | none => d
  | some v => if v = 0 then d else v

/-- JS `x || d` for an optionally-present string field
(`undefined`/`null` and `""` are falsy). -/
def jsOrS (x : Option String) (d : String) : String :=
  match x with
  | none => d
  | some s => if s = "" then d else s

/-- JS `x || y` where both sides are optionally-present strings. -/
def jsOrOpt (x y : Option String) : Option String :=
  match x with
  | none => y
  | some s => if s = "" then y else some s

/-- Split a character list at a separator character (JS `split('\n')`). -/
def splitOnChar (sep : Char) : List Char → List (List Char)
  | [] => [[]]
  | c :: rest =>
    let r := splitOnChar sep rest
    if c = sep then [] :: r
    else
      match r with
      | [] => [[c]]
      | h :: t => (c :: h) :: t

/-! ## Relationship ledger (`src/agent/soul/relationship_manager.js`) -/

/-- A remembered significant interaction (`Relationship.addMemory`). -/
structure RelMemory where
  mtype : String
  emotional : String
  timestamp : ℚ
deriving DecidableEq, Repr

/-- Source `Relationship` record: per-(owner, peer) metrics and a derived `type`. -/
structure Relationship where
  target : String
  trust : ℚ := 0
  fondness : ℚ := 0
  respect : ℚ := 0
  totalInteractions : ℕ := 0
  positiveInteractions : ℕ := 0
  negativeInteractions : ℕ := 0
  lastInteraction : Option ℚ := none
  memories : List RelMemory := []
  rtype : String := "stranger"
deriving DecidableEq, Repr

/-- The `impactMap` table of `Relationship.recordInteraction`:
interaction kind ↦ (trust, fondness, respect) deltas. -/
def impactOf (t : String) : ℚ × ℚ × ℚ :=
  if t = "helped" then (1/10, 1/10, 1/20)
  else if t = "complimented" then (1/20, 3/20, 1/20)
  else if t = "thanked" then (1/20, 1/10, 1/20)
  else if t = "gifted" then (1/10, 1/5, 1/10)
  else if t = "defended" then (3/20, 3/20, 1/10)
  else if t = "goodConversation" then (1/20, 1/10, 1/20)
  else if t = "laughedTogether" then (1/20, 3/20, 0)
  else if t = "sharedGoal" then (1/10, 1/10, 1/10)
  else if t = "insulted" then (-(3/20), -(1/5), -(1/10))
  else if t = "ignored" then (-(1/20), -(1/10), -(1/20))
  else if t = "attacked" then (-(3/10), -(3/10), -(1/10))
  else if t = "betrayed" then (-(2/5), -(3/10), -(1/5))
  else if t = "mocked" then (-(1/10), -(3/20), -(1/10))
  else if t = "interrupted" then (-(1/20), -(1/20), -(1/10))
  else if t = "commanded" then (0, -(1/20), -(1/20))
  else if t = "dismissed" then (-(1/10), -(1/10), -(3/20))
  else if t = "collaborated" then (1/20, 1/20, 1/10)
  else if t = "chatted" then (1/50, 3/100, 0)
  else if t = "observed" then (0, 0, 1/50)
  else (0, 0, 0)

/-- Source `Relationship.applyChange`: apply a delta with diminishing returns near
the extremes, clamped to [-1, 1]. -/
def applyChange (current delta : ℚ) : ℚ :=
  let resistance := |current| * (1/2)
  let effectiveDelta := delta * (1 - resistance)
  max (-1) (min 1 (current + effectiveDelta))

/-- Source `Relationship.updateType`'s classification of the metric mean. -/
def typeFromAvg (avg : ℚ) : String :=
  if avg > 3/5 then "bestFriend"
  else if avg > 3/10 then "friend"
  else if avg > 1/10 then "acquaintance"
  else if avg > -(1/5) then "stranger"
  else if avg > -(1/2) then "rival"
  else "enemy"

/-- Source `Relationship.updateType`: recompute `type` from the current metrics. -/
def updateType (r : Relationship) : Relationship :=
  { r with rtype := typeFromAvg ((r.trust + r.fondness + r.respect) / 3) }

/-- Source `Relationship.addMemory` (bounded to the last 10 entries). -/
def addMemory (r : Relationship) (t : String) (now : ℚ) : Relationship :=
  let m : RelMemory :=
    { mtype := t
      emotional :=
        if r.fondness > 3/10 then "positive"
        else if r.fondness < -(3/10) then "negative" else "neutral"
      timestamp := now }
  let ms := r.memories ++ [m]
  { r with memories := if ms.length > 10 then ms.drop 1 else ms }

/-- Source `Relationship.recordInteraction`: apply the impact of one interaction,
update the counters and memories, and recompute `type`. -/
def recordInteraction (r : Relationship) (t : String) (now : ℚ) : Relationship :=
  let r := { r with totalInteractions := r.totalInteractions + 1,
                    lastInteraction := some now }
  let impact := impactOf t
  let r := { r with trust := applyChange r.trust impact.1,
                    fondness := applyChange r.fondness impact.2.1,
                    respect := applyChange r.respect impact.2.2 }
  let r :=
    if impact.2.1 > 0 then { r with positiveInteractions := r.positiveInteractions + 1 }
    else if impact.2.1 < 0 then { r with negativeInteractions := r.negativeInteractions + 1 }
    else r
  let r := if |impact.2.1| ≥ 1/10 ∨ |impact.1| ≥ 1/10 then addMemory r t now else r
  updateType r

/-- Source `Relationship.decay`: fade the metrics toward zero and recompute `type`. -/
def decayRel (r : Relationship) (hours : ℚ) : Relationship :=
  let decayRate := (1/100) * hours
  updateType { r with trust := r.trust * (1 - decayRate),
                      fondness := r.fondness * (1 - decayRate),
                      respect := r.respect * (1 - decayRate) }

/-- The classification of C7, written interval-style from the spec's
documented thresholds. -/
def typeSpec (avg : ℚ) : String :=
  if 3/5 < avg then "bestFriend"
  else if 3/10 < avg ∧ avg ≤ 3/5 then "friend"
  else if 1/10 < avg ∧ avg ≤ 3/10 then "acquaintance"
  else if -(1/5) < avg ∧ avg ≤ 1/10 then "stranger"
  else if -(1/2) < avg ∧ avg ≤ -(1/5) then "rival"
  else "enemy"

lemma typeFromAvg_eq_typeSpec (avg : ℚ) : typeFromAvg avg = typeSpec avg := by
  unfold typeFromAvg typeSpec
  split_ifs <;> first
    | rfl
    | (exfalso; simp_all; linarith)
    | (exfalso; simp_all)

lemma updateType_rtype (r : Relationship) :
    (updateType r).rtype = typeSpec ((r.trust + r.fondness + r.respect) / 3) := by
  rw [updateType, ← typeFromAvg_eq_typeSpec]

lemma updateType_metrics (r : Relationship) :
    (updateType r).trust = r.trust ∧ (updateType r).fondness = r.fondness ∧
      (updateType r).respect = r.respect := by
  refine ⟨rfl, rfl, rfl⟩

/-! ## Emotional state store (`src/agent/soul/soul_state.js`) -/

/-- The bounded personality configuration consulted by `SoulState` and the
cognitive engine (`personality.chattiness`, `.emotionalVolatility`,
`.angerThreshold`, `.currentEmotion`); absent fields are `none` and JS
falsiness supplies the defaults at each read site. -/
structure Personality where
  chattiness : Option ℚ := none
  emotionalVolatility : Option ℚ := none
  angerThreshold : Option ℚ := none
  currentEmotion : Option String := none
deriving DecidableEq, Repr

/-- A grievance entry (`SoulState.addGrievance`). -/
structure Grievance where
  player : String
  count : ℕ
  lastTime : ℚ
  reasons : List String
deriving DecidableEq, Repr

/-- One entry of `SoulState.emotionHistory`. -/
structure EmotionChange where
  efrom : String
  eto : String
  intensity : ℚ
  timestamp : ℚ
deriving DecidableEq, Repr

/-- Source `SoulState`: per-agent emotional state (constructor defaults shown). -/
structure SoulState where
  botName : String := ""
  personality : Personality := {}
  emotion : String := "calm"
  emotionIntensity : ℚ := 1/2
  emotionHistory : List EmotionChange := []
  lastEmotionChange : ℚ := 0
  frustrationLevel : ℚ := 0
  grievances : List Grievance := []
deriving DecidableEq, Repr

/-- Effective `emotionalVolatility` read (`this.personality.emotionalVolatility || 0.5`). -/
def effVol (st : SoulState) : ℚ := jsOrQ st.personality.emotionalVolatility (1/2)

/-- Effective `angerThreshold` read (`this.personality.angerThreshold || 0.5`). -/
def effAnger (st : SoulState) : ℚ := jsOrQ st.personality.angerThreshold (1/2)

/-- The anger-throttling downgrade inside `setEmotion`: a requested
`'angry'` is weakened to `'frustrated'`/`'annoyed'` while frustration is
below the anger threshold. -/
def effEmotion (st : SoulState) (emotion0 : String) : String :=
  if emotion0 = "angry" ∧ st.frustrationLevel < effAnger st then
    (if st.frustrationLevel > effAnger st * (1/2) then "frustrated" else "annoyed")
  else emotion0

/-- The stoic-resistance roll inside `setEmotion`
(`changeResistance > 0.5 && previousEmotion === 'calm' &&
Math.random() < changeResistance - 0.3`). -/
def resistCond (st : SoulState) (rand : ℚ) : Bool :=
  if 1 - effVol st > 1/2 ∧ st.emotion = "calm" ∧
      rand < (1 - effVol st) - 3/10 then true else false

/-- The tail of `setEmotion` once the (already downgraded) emotion is
actually applied: intensity clamp, history push, frustration update. -/
def applyEmotion (st : SoulState) (emotion : String) (intensity now : ℚ) :
    SoulState :=
  let volatility := effVol st
  let newIntensity := max 0 (min 1 (intensity * (1/2 + volatility * (1/2))))
  let hist := st.emotionHistory ++
    [{ efrom := st.emotion, eto := emotion, intensity := newIntensity,
       timestamp := now }]
  let frustrationGain := (1/5) * (1/2 + volatility * (1/2))
  let newFrustration :=
    if emotion = "angry" ∨ emotion = "frustrated" ∨ emotion = "annoyed" ∨
        emotion = "irritated" then
      min 1 (st.frustrationLevel + frustrationGain)
    else if emotion = "happy" ∨ emotion = "calm" ∨ emotion = "grateful" then
      max 0 (st.frustrationLevel - 1/10)
    else st.frustrationLevel
  { st with
    emotion := emotion
    emotionIntensity := newIntensity
    lastEmotionChange := now
    emotionHistory := if hist.length > 10 then hist.drop 1 else hist
    personality := { st.personality with currentEmotion := some emotion }
    frustrationLevel := newFrustration }

/-- Source `SoulState.setEmotion(emotion, intensity)`.  `rand` is the
`Math.random()` draw of the stoic-resistance roll and `now` is `Date.now()`. -/
def setEmotion (st : SoulState) (emotion0 : String) (intensity : ℚ)
    (rand now : ℚ) : SoulState :=
  if resistCond st rand then st
  else applyEmotion st (effEmotion st emotion0) intensity now

/-- Update the first matching grievance, or append a fresh one
(`SoulState.addGrievance`, which mutates the first `find` hit). -/
def bumpGrievances (p r : String) (now : ℚ) : List Grievance → List Grievance
  | [] => [{ player := p, count := 1, lastTime := now, reasons := [r] }]
  | g :: rest =>
    if g.player = p then
      { g with count := g.count + 1, lastTime := now,
               reasons := g.reasons ++ [r] } :: rest
    else g :: bumpGrievances p r now rest

/-- Source `SoulState.addGrievance(playerName, reason)`. -/
def addGrievance (st : SoulState) (playerName reason : String) (now : ℚ) :
    SoulState :=
  { st with grievances := bumpGrievances playerName reason now st.grievances }

/-- The intensity drop inside `SoulState.decayEmotion()`
(`emotionDecayRate` is fixed at 0.1 by the constructor and never
reassigned). -/
def decayStep (st : SoulState) : SoulState :=
  { st with emotionIntensity := max (3/10) (st.emotionIntensity - 1/10) }

/-- Source `SoulState.decayEmotion()` continued: drop the intensity toward the 0.3
floor, and fall back to `setEmotion('calm', 0.5)` once it reaches it. -/
def decayEmotion (st : SoulState) (now rand : ℚ) : SoulState :=
  if now - st.lastEmotionChange > 60000 then
    if st.emotion ≠ "calm" ∧ st.emotionIntensity > 3/10 then
      if (decayStep st).emotionIntensity ≤ 3/10 then
        setEmotion (decayStep st) "calm" (1/2) rand now
      else decayStep st
    else st
  else st

/-- One mutation step of an agent's emotional state, as exercised by the
arbitration/event handlers: an arbitrary `setEmotion`, a grievance update,
or an emotion decay. -/
inductive SoulOp
  | set (emotion : String) (intensity rand now : ℚ)
  | grieve (player reason : String) (now : ℚ)
  | decay (now rand : ℚ)
deriving DecidableEq, Repr

/-- Apply one emotional-state operation. -/
def applySoulOp (st : SoulState) : SoulOp → SoulState
  | .set e i r t => setEmotion st e i r t
  | .grieve p r t => addGrievance st p r t
  | .decay t r => decayEmotion st t r

/-- Apply a sequence of emotional-state operations. -/
def applySoulOps (st : SoulState) (ops : List SoulOp) : SoulState :=
  ops.foldl applySoulOp st

/-- The C6 invariant: intensity and frustration lie in [0, 1]. -/
def EmoInv (st : SoulState) : Prop :=
  0 ≤ st.emotionIntensity ∧ st.emotionIntensity ≤ 1 ∧
    0 ≤ st.frustrationLevel ∧ st.frustrationLevel ≤ 1

lemma effVol_applyEmotion (st : SoulState) (e : String) (i t : ℚ) :
    effVol (applyEmotion st e i t) = effVol st := rfl

lemma effVol_setEmotion (st : SoulState) (e : String) (i r t : ℚ) :
    effVol (setEmotion st e i r t) = effVol st := by
  unfold setEmotion
  split <;> rfl

lemma applyEmotion_emoInv (st : SoulState) (e : String) (i t : ℚ)
    (hInv : EmoInv st) (hVol : 0 ≤ effVol st) :
    EmoInv (applyEmotion st e i t) := by
  obtain ⟨_, _, hf0, hf1⟩ := hInv
  unfold applyEmotion EmoInv
  refine ⟨le_max_left _ _, max_le (by norm_num) (min_le_left _ _), ?_, ?_⟩ <;>
    dsimp only <;> split_ifs
  · exact le_min (by norm_num) (by positivity)
  · exact le_max_left _ _
  · exact hf0
  · exact min_le_left _ _
  · exact max_le (by norm_num) (by linarith)
  · exact hf1

lemma setEmotion_emoInv (st : SoulState) (e : String) (i r t : ℚ)
    (hInv : EmoInv st) (hVol : 0 ≤ effVol st) :
    EmoInv (setEmotion st e i r t) := by
  unfold setEmotion
  split
  · exact hInv
  · exact applyEmotion_emoInv _ _ _ _ hInv hVol

lemma applySoulOp_emoInv (st : SoulState) (op : SoulOp)
    (hInv : EmoInv st) (hVol : 0 ≤ effVol st) :
    EmoInv (applySoulOp st op) := by
  obtain ⟨hi0, hi1, hf0, hf1⟩ := hInv
  cases op with
  | set e i r t => exact setEmotion_emoInv _ _ _ _ _ ⟨hi0, hi1, hf0, hf1⟩ hVol
  | grieve p r t => exact ⟨hi0, hi1, hf0, hf1⟩
  | decay t r =>
    show EmoInv (decayEmotion st t r)
    unfold decayEmotion
    split_ifs with h1 h2 h3
    · refine setEmotion_emoInv _ _ _ _ _ ⟨?_, ?_, hf0, hf1⟩ hVol
      · exact le_trans (by norm_num) (le_max_left _ _)
      · exact max_le (by norm_num) (by linarith)
    · exact ⟨le_trans (by norm_num) (le_max_left _ _),
             max_le (by norm_num) (by linarith), hf0, hf1⟩
    · exact ⟨hi0, hi1, hf0, hf1⟩
    · exact ⟨hi0, hi1, hf0, hf1⟩

lemma effVol_applySoulOp (st : SoulState) (op : SoulOp) :
    effVol (applySoulOp st op) = effVol st := by
  cases op with
  | set e i r t => exact effVol_setEmotion _ _ _ _ _
  | grieve p r t => rfl
  | decay t r =>
    show effVol (decayEmotion st t r) = effVol st
    unfold decayEmotion
    split_ifs <;> first | rfl | exact effVol_setEmotion _ _ _ _ _

/-- C6: for every agent's emotional state and every sequence of operations
(`setEmotion` with arbitrary emotion and intensity arguments, grievance
updates via `addGrievance`, and `decayEmotion`), the stored intensity and
frustration values remain within [0, 1] after each step.  The personality's
(bounded) volatility trait is assumed nonnegative, as all configured
volatility values are. -/
theorem soulState_intensity_frustration_bounded
    (st : SoulState) (ops : List SoulOp)
    (hInv : EmoInv st) (hVol : 0 ≤ effVol st) :
    EmoInv (applySoulOps st ops) := by
  induction ops generalizing st with
  | nil => exact hInv
  | cons op rest ih =>
    have h1 := applySoulOp_emoInv st op hInv hVol
    have h2 : (0 : ℚ) ≤ effVol (applySoulOp st op) :=
      (effVol_applySoulOp st op).symm ▸ hVol
    exact ih (applySoulOp st op) h1 h2

/-- Witness for C6: a concrete run — an over-the-top `setEmotion('angry', 5)`,
a grievance and a decay starting from the constructor state — keeps both
values in [0, 1]. -/
theorem soulState_intensity_frustration_bounded_witness :
    EmoInv (applySoulOps {}
      [.set "angry" 5 (1/2) 1000, .grieve "Sam" "rude" 2000,
       .decay 100000 (1/2)]) :=
  soulState_intensity_frustration_bounded {} _
    (by constructor <;> norm_num [EmoInv]) (by norm_num [effVol, jsOrQ])

lemma updateType_consistent (r : Relationship) :
    (updateType r).rtype =
      typeSpec (((updateType r).trust + (updateType r).fondness +
        (updateType r).respect) / 3) := by
  rw [updateType_rtype]; rfl

/-- C7: after every `recordInteraction` and every `decay`, the stored
relationship `type` equals the pure classification of the mean of
(trust, fondness, respect) by the documented thresholds (mean > 0.6 ⇒
bestFriend, 0.3 < mean ≤ 0.6 ⇒ friend, 0.1 < mean ≤ 0.3 ⇒ acquaintance,
-0.2 < mean ≤ 0.1 ⇒ stranger, -0.5 < mean ≤ -0.2 ⇒ rival, mean ≤ -0.5 ⇒
enemy): the type is never stored out of sync with the metrics. -/
theorem relationship_type_consistent (r : Relationship) (t : String)
    (now hours : ℚ) :
    (recordInteraction r t now).rtype =
      typeSpec (((recordInteraction r t now).trust +
        (recordInteraction r t now).fondness +
        (recordInteraction r t now).respect) / 3) ∧
    (decayRel r hours).rtype =
      typeSpec (((decayRel r hours).trust + (decayRel r hours).fondness +
        (decayRel r hours).respect) / 3) :=
  ⟨updateType_consistent _, updateType_consistent _⟩

/-- The concrete emotional state used to witness the anger-downgrade rule:
frustration 0.2, anger threshold 0.6. -/
def angerSt : SoulState :=
  { frustrationLevel := 1/5, personality := { angerThreshold := some (3/5) } }

/-- C8: requesting `setEmotion('angry', ·)` while frustration is below the
anger threshold never stores `'angry'` (for any requested emotion, `'angry'`
is only stored once frustration has reached the threshold); when the change
is not resisted by the stoic roll, the emotion actually applied is
`'frustrated'` if frustration exceeds half the threshold and `'annoyed'`
otherwise. -/
theorem setEmotion_anger_downgrade (st : SoulState) (e : String) (i r t : ℚ)
    (h : st.frustrationLevel < effAnger st) :
    (setEmotion st e i r t).emotion ≠ "angry" ∧
    (resistCond st r = false →
      (setEmotion st "angry" i r t).emotion =
        (if st.frustrationLevel > effAnger st * (1/2) then "frustrated"
         else "annoyed")) := by
  constructor
  · unfold setEmotion
    split_ifs with hres
    · -- the resist branch keeps the previous emotion, which must be "calm"
      unfold resistCond at hres
      split_ifs at hres with hc
      rw [hc.2.1]; decide
    · show (effEmotion st e) ≠ "angry"
      unfold effEmotion
      split_ifs with h1 h2
      · decide
      · decide
      · rintro rfl
        exact h1 ⟨rfl, h⟩
  · intro hres
    unfold setEmotion
    rw [hres]
    show (effEmotion st "angry") = _
    unfold effEmotion
    rw [if_pos ⟨rfl, h⟩]

/-- Witness for C8: with frustration 0.2 and threshold 0.6 a requested
`'angry'` is not stored as `'angry'` (it lands as `'annoyed'`). -/
theorem setEmotion_anger_downgrade_witness :
    angerSt.frustrationLevel < effAnger angerSt ∧
      (setEmotion angerSt "angry" (1/2) (1/2) 0).emotion ≠ "angry" :=
  ⟨by norm_num [angerSt, effAnger, jsOrQ],
   (setEmotion_anger_downgrade angerSt "angry" (1/2) (1/2) 0
      (by norm_num [angerSt, effAnger, jsOrQ])).1⟩

/-! ## Cognitive engine decision (`src/agent/soul/cognitive_engine.js`,
`CognitiveEngine.shouldRespond` and `quickEmotionCheck`) -/

/-- The fixed farewell phrase set. -/
def farewellPhrases : List String :=
  ["bye", "goodbye", "see you", "see ya", "cya", "later", "take care",
   "catch you", "talk to you", "until next", "for now", "gotta go",
   "heading out", "signing off", "peace out", "farewell"]

/-- The fixed acknowledgment/agreement phrase set. -/
def agreementPhrases : List String :=
  ["sounds good", "got it", "understood", "will do", "on it", "roger",
   "alright", "okay", "ok", "sure thing", "no problem", "np",
   "you too", "same to you", "likewise", "back at you",
   "agreed", "exactly", "right", "same", "true", "indeed", "yep", "yeah"]

/-- Does `message.toLowerCase().trim()` contain a farewell phrase? -/
def farewellHit (message : String) : Bool :=
  farewellPhrases.any (fun p => containsSub p.data (trimLower message))

/-- Is the trimmed lowercase message shorter than 50 chars and containing an
acknowledgment phrase? -/
def ackHit (message : String) : Bool :=
  (trimLower message).length < 50 &&
    agreementPhrases.any (fun p => containsSub p.data (trimLower message))

/-- Source `\w` of the back-and-forth speaker regex (`/^(\w+):/`). -/
def isWordChar (c : Char) : Bool := c.isAlphanum || c = '_'

/-- Match `/^(\w+):/` against one context line, returning the speaker. -/
def matchSpeaker (l : List Char) : Option String :=
  let w := l.takeWhile isWordChar
  match w, l.drop w.length with
  | [], _ => none
  | _ :: _, ':' :: _ => some (String.mk w)
  | _ :: _, _ => none

/-- Count alternating recipient/sender turns over the last 8 non-blank lines
of the shared recent context (the back-and-forth scan). -/
def bfCount (botName sender recentContext : String) : ℕ :=
  let lines := (splitOnChar '\n' recentContext.data).filter
    (fun l => !(jsTrimL l).isEmpty)
  let last8 := lines.drop (lines.length - 8)
  (last8.foldl
    (fun (acc : ℕ × String) line =>
      match matchSpeaker line with
      | none => acc
      | some speaker =>
        ((if (speaker = botName ∧ acc.2 = sender) ∨
             (speaker = sender ∧ acc.2 = botName) then acc.1 + 1 else acc.1),
         speaker))
    (0, "")).1

/-- Does the back-and-forth throttle fire?  `randBF` is the skip roll;
at 4+ exchanges the disjunct `backAndForthCount >= 4` skips regardless. -/
def bfSkip (botName sender recentContext : String) (randBF : ℚ) : Bool :=
  if recentContext = "" then false
  else if 2 ≤ bfCount botName sender recentContext then
    (if randBF < min (95/100)
          (6/10 + (bfCount botName sender recentContext : ℚ) * (15/100)) ∨
        4 ≤ bfCount botName sender recentContext
     then true else false)
  else false

/-- The characters of the first-token split (`/[\s\n.,!?]/`). -/
def isSplitChar (c : Char) : Bool :=
  c.isWhitespace || c = '.' || c = ',' || c = '!' || c = '?'

/-- The first token of the oracle reply (`rawDecision.split(/[\s\n.,!?]/)[0]`). -/
def firstTok (rawDecision : String) : String :=
  String.mk (rawDecision.data.takeWhile (fun c => !isSplitChar c))

/-- Parse the oracle's raw (lowercased, trimmed) reply into
{respond, skip, wait}: exact first word, else substring search, else wait. -/
def parseDecision (rawDecision : String) : String :=
  if firstTok rawDecision = "respond" ∨ firstTok rawDecision = "skip" ∨
      firstTok rawDecision = "wait" then firstTok rawDecision
  else if incl rawDecision "respond" then "respond"
  else if incl rawDecision "skip" then "skip"
  else "wait"

/-- Source `CognitiveEngine.quickEmotionCheck(message, botName, currentEmotion)`:
fast lexical emotion classification, no oracle call. -/
def quickEmotionCheck (message botName currentEmotion : String) : String :=
  let msgLower := String.mk (lowerL message.data)
  let botLower := String.mk (lowerL botName.data)
  if incl msgLower "stupid" ∨ incl msgLower "idiot" ∨ incl msgLower "useless"
    then "angry"
  else if incl msgLower "shut up" ∨ incl msgLower "be quiet" ∨
      incl msgLower "stop talking" then "annoyed"
  else if incl msgLower "you suck" ∨ incl msgLower "youre bad" ∨
      incl msgLower "you\x27re bad" then "frustrated"
  else if incl msgLower "hurry up" ∨ incl msgLower "faster" ∨
      incl msgLower "too slow" then "irritated"
  else if incl msgLower "good job" ∨ incl msgLower "nice work" ∨
      incl msgLower "well done" then "proud"
  else if incl msgLower "thank" ∨ incl msgLower "appreciate" then "grateful"
  else if incl msgLower "!" ∧ (incl msgLower "awesome" ∨
      incl msgLower "amazing" ∨ incl msgLower "cool") then "excited"
  else if incl msgLower "what" ∧ incl msgLower "?" then "curious"
  else if incl msgLower "check out" ∨ incl msgLower "look at" ∨
      incl msgLower "found something" then "curious"
  else if incl msgLower botLower then "focused"
  else if incl message "?" then "helpful"
  else currentEmotion

/-- The result record of `CognitiveEngine.shouldRespond`. -/
structure EngineDecision where
  shouldRespond : Bool
  reason : String
  emotion : String
  emotionInfluenced : Bool := false
deriving DecidableEq, Repr

/-- The lowercased, trimmed oracle reply with the JS `(result || 'skip')`
default applied. -/
def rawOracle (oracle : Option String) : String :=
  String.mk (jsTrimL (lowerL (jsOrS oracle "skip").data))

/-- The provocation test of the "provoked" override: the lowercased message
names the bot or contains one of the provocation markers. -/
def provokedB (botName message : String) : Bool :=
  incl (String.mk (lowerL message.data)) (String.mk (lowerL botName.data)) ||
  incl (String.mk (lowerL message.data)) "stupid" ||
  incl (String.mk (lowerL message.data)) "useless" ||
  incl (String.mk (lowerL message.data)) "you suck" ||
  incl (String.mk (lowerL message.data)) "shut up"

/-- The emotion-driven override chain after the oracle verdict:
`decision`/`emotion` are the parsed verdict and the quick emotion check,
`isExtroverted` is `chattiness > 0.5`, `prov` the provocation test. -/
def cogOverrides (decision emotion : String) (isExtroverted prov : Bool)
    (randEnth randBored : ℚ) : EngineDecision :=
  if decision ≠ "respond" ∧ (emotion = "angry" ∨ emotion = "frustrated" ∨
      emotion = "annoyed" ∨ emotion = "irritated") ∧ prov then
    { shouldRespond := true, reason := "provoked", emotion := emotion,
      emotionInfluenced := true }
  else if decision ≠ "respond" ∧ (emotion = "happy" ∨ emotion = "excited" ∨
      emotion = "playful") ∧ isExtroverted ∧ randEnth < 3/10 then
    { shouldRespond := true, reason := "enthusiastic", emotion := emotion,
      emotionInfluenced := true }
  else if decision = "respond" ∧ emotion = "bored" ∧
      decision ≠ "directly_mentioned" ∧ randBored < 4/10 then
    { shouldRespond := false, reason := "too_bored", emotion := emotion }
  else
    { shouldRespond := decision = "respond", reason := decision,
      emotion := emotion }

/-- The oracle-decision stage plus the emotion-driven overrides of
`CognitiveEngine.shouldRespond` (stages after the farewell/acknowledgment/
back-and-forth short circuits).  `oracle` is the `query` result (`none` on
any provider failure), `randEnth`/`randBored` the override rolls. -/
def cogStage3 (botName message : String) (personality : Personality)
    (oracle : Option String) (randEnth randBored : ℚ) : EngineDecision :=
  cogOverrides (parseDecision (rawOracle oracle))
    (quickEmotionCheck message botName (jsOrS personality.currentEmotion "calm"))
    (jsOrQ personality.chattiness (1/2) > 1/2)
    (provokedB botName message) randEnth randBored

/-- Source `CognitiveEngine.shouldRespond({botName, message, sender, recentContext,
personality, ...})`: farewell detection, acknowledgment detection,
back-and-forth throttle, then the oracle decision with emotion overrides. -/
def cogShouldRespond (botName message sender recentContext : String)
    (personality : Personality) (oracle : Option String)
    (randBF randEnth randBored : ℚ) : EngineDecision :=
  if farewellHit message then
    { shouldRespond := false, reason := "farewell_detected",
      emotion := jsOrS personality.currentEmotion "calm" }
  else if ackHit message then
    { shouldRespond := false, reason := "acknowledgment",
      emotion := jsOrS personality.currentEmotion "calm" }
  else if bfSkip botName sender recentContext randBF then
    { shouldRespond := false, reason := "conversation_limit",
      emotion := jsOrS personality.currentEmotion "calm" }
  else cogStage3 botName message personality oracle randEnth randBored

/-! ## Response arbitration
(`src/agent/conversation_coordinator.js`, `ConversationCoordinator`) -/

/-- The coordinator's shared `lastResponse` record (who answered last). -/
structure LastResponse where
  responder : Option String := none
  timestamp : ℚ := 0
deriving DecidableEq, Repr

/-- The urgency multiplier of `getBaseDelay` (`switch (urgency)`). -/
def urgencyMultiplier (urgency : String) : ℚ :=
  if urgency = "fast" then 1/2
  else if urgency = "slow" then 3/2
  else if urgency = "very_slow" then 5/2
  else 1

/-- The decision record produced by `ConversationCoordinator.shouldRespond`.
`urgency` is the delay band handed to `getBaseDelay` (`"none"` when the
decision is not to respond, where the source returns `delay: 0`), and
`emotionSet` is the `(emotion, intensity)` argument pair the coordinator
passes to `state.setEmotion` on that path. -/
structure CoordResult where
  shouldRespond : Bool
  urgency : String
  reason : String
  emotion : Option String := none
  emotionSet : Option (String × ℚ) := none
deriving DecidableEq, Repr

/-- Source `ConversationCoordinator.simpleFallback` — the heuristic used only when
the cognitive-engine call throws. -/
def simpleFallback (botName message : String) (lastResp : LastResponse)
    (now randFB : ℚ) : CoordResult :=
  if now - lastResp.timestamp < 5000 ∧ lastResp.responder ≠ some botName then
    { shouldRespond := false, urgency := "none", reason := "someone_responded" }
  else if incl message "?" then
    { shouldRespond := true, urgency := "normal", reason := "question" }
  else if randFB < 1/5 then
    { shouldRespond := true, urgency := "slow", reason := "random" }
  else
    { shouldRespond := false, urgency := "none", reason := "skipped" }

/-- Does the message name a *different* known agent
(`otherBots.find(...)` in the coordinator)? -/
def mentionsOtherBot (botName message : String) (otherBots : List String) :
    Bool :=
  (otherBots.find? (fun other =>
    (String.mk (lowerL other.data) != String.mk (lowerL botName.data)) &&
      containsSub (lowerL other.data) (lowerL message.data))).isSome

/-- The urgency band selected from the engine's emotion tag when the
decision is to respond. -/
def urgencyFor (emotion : String) : String :=
  if emotion = "angry" ∨ emotion = "frustrated" ∨ emotion = "irritated" then
    "fast"
  else if emotion = "excited" ∨ emotion = "happy" then "fast"
  else if emotion = "bored" ∨ emotion = "tired" then "slow"
  else if emotion = "cautious" ∨ emotion = "worried" then "slow"
  else "normal"

/-- Source `ConversationCoordinator.shouldRespond(botName, username, message,
otherBots)`: self-mention check, other-bot-mention check, then the cognitive
engine (or `simpleFallback` when that call throws, modelled by
`engineThrows`).  `recentContext` stands for
`soulStateManager.getRecentContext(4)` and `personality` for the bot's
`state.personality`. -/
def coordShouldRespond (botName username message : String)
    (otherBots : List String) (personality : Personality)
    (recentContext : String) (oracle : Option String) (engineThrows : Bool)
    (lastResp : LastResponse) (now : ℚ)
    (randBF randEnth randBored randFB : ℚ) : CoordResult :=
  if containsSub (lowerL botName.data) (lowerL message.data) then
    { shouldRespond := true, urgency := "fast",
      reason := "directly_mentioned",
      emotionSet := some ("attentive", 7/10) }
  else if mentionsOtherBot botName message otherBots then
    { shouldRespond := false, urgency := "none",
      reason := "other_bot_mentioned" }
  else if engineThrows then simpleFallback botName message lastResp now randFB
  else
    let d := cogShouldRespond botName message username recentContext
      personality oracle randBF randEnth randBored
    let eset := some (jsOrS (some d.emotion) "calm",
      if d.emotionInfluenced then (8/10 : ℚ) else 1/2)
    if d.shouldRespond then
      { shouldRespond := true, urgency := urgencyFor d.emotion,
        reason := d.reason, emotion := some d.emotion, emotionSet := eset }
    else
      { shouldRespond := false, urgency := "none", reason := d.reason,
        emotion := some d.emotion, emotionSet := eset }

/-! ## Claims about the arbitration pipeline -/

lemma parseDecision_mem (raw : String) :
    parseDecision raw = "respond" ∨ parseDecision raw = "skip" ∨
      parseDecision raw = "wait" := by
  unfold parseDecision
  split_ifs with h1 h2 h3
  · exact h1
  · exact Or.inl rfl
  · exact Or.inr (Or.inl rfl)
  · exact Or.inr (Or.inr rfl)

lemma cogOverrides_reason_ne (decision emotion : String)
    (isExtroverted prov : Bool) (randEnth randBored : ℚ)
    (hd : decision = "respond" ∨ decision = "skip" ∨ decision = "wait") :
    (cogOverrides decision emotion isExtroverted prov randEnth
        randBored).reason ≠ "conversation_limit" := by
  unfold cogOverrides
  split_ifs <;> simp only
  · decide
  · decide
  · decide
  · rcases hd with h | h | h <;> rw [h] <;> decide

lemma bfSkip_true_of_ge4 (botName sender recentContext : String) (randBF : ℚ)
    (hctx : recentContext ≠ "")
    (h4 : 4 ≤ bfCount botName sender recentContext) :
    bfSkip botName sender recentContext randBF = true := by
  unfold bfSkip
  rw [if_neg hctx, if_pos (le_trans (by norm_num) h4), if_pos (Or.inr h4)]

lemma bfSkip_false_of_lt4 (botName sender recentContext : String) (randBF : ℚ)
    (h23 : bfCount botName sender recentContext = 2 ∨
      bfCount botName sender recentContext = 3)
    (hr : 95/100 ≤ randBF) :
    bfSkip botName sender recentContext randBF = false := by
  unfold bfSkip
  split_ifs with h1 h2 h3
  · rfl
  · exfalso
    rcases h3 with h3 | h3
    · exact absurd h3 (not_lt.mpr (le_trans (min_le_left _ _) hr))
    · rcases h23 with h | h <;> omega
  · rfl
  · rfl

/-- C2: whenever the message text contains the recipient agent's own name
(case-insensitively), the arbitration returns `shouldRespond = true` with
the fast (short) delay band, reason `directly_mentioned`, and requests the
`'attentive'` emotion — independently of the oracle reply, the random
draws, the other bots, and the context, so in particular also for messages
that contain farewell or acknowledgment phrases. -/
theorem coord_self_mention (botName username message : String)
    (otherBots : List String) (personality : Personality)
    (recentContext : String) (oracle : Option String) (engineThrows : Bool)
    (lastResp : LastResponse) (now randBF randEnth randBored randFB : ℚ)
    (h : containsSub (lowerL botName.data) (lowerL message.data) = true) :
    coordShouldRespond botName username message otherBots personality
        recentContext oracle engineThrows lastResp now randBF randEnth
        randBored randFB =
      { shouldRespond := true, urgency := "fast",
        reason := "directly_mentioned",
        emotionSet := some ("attentive", 7/10) } ∧
    urgencyMultiplier "fast" < urgencyMultiplier "normal" := by
  constructor
  · unfold coordShouldRespond
    rw [if_pos h]
  · have h1 : urgencyMultiplier "fast" = 1/2 := by
      unfold urgencyMultiplier; rw [if_pos rfl]
    have h2 : urgencyMultiplier "normal" = 1 := by
      unfold urgencyMultiplier
      rw [if_neg (by decide), if_neg (by decide), if_neg (by decide)]
    rw [h1, h2]; norm_num

/-- Witness for C2: the spec's precedence example — `"Hey Blaze, bye!"`
directed at agent `"Blaze"` contains the farewell phrase `"bye"` and still
yields `shouldRespond = true` with the fast band. -/
theorem coord_self_mention_witness :
    farewellHit "Hey Blaze, bye!" = true ∧
    coordShouldRespond "Blaze" "Sam" "Hey Blaze, bye!" ["Alice"] {} ""
        (some "skip") false {} 0 0 0 0 0 =
      { shouldRespond := true, urgency := "fast",
        reason := "directly_mentioned",
        emotionSet := some ("attentive", 7/10) } :=
  ⟨by decide,
   (coord_self_mention "Blaze" "Sam" "Hey Blaze, bye!" ["Alice"] {} ""
      (some "skip") false {} 0 0 0 0 0 (by decide)).1⟩

/-- C3: with 4 or more alternating recipient/sender turns counted over the
last 8 lines of the shared recent context, a decision that reaches the
back-and-forth stage (no farewell or acknowledgment short-circuit) returns
`shouldRespond = false` with reason `conversation_limit` — for every oracle
reply and every skip roll, i.e. unconditionally and without consulting the
oracle; at 2 or 3 exchanges the skip is only probabilistic: a roll at or
above the 0.95 cap proceeds past the throttle. -/
theorem cog_conversation_limit (botName message sender recentContext : String)
    (personality : Personality) (oracle : Option String)
    (randBF randEnth randBored : ℚ)
    (hfw : farewellHit message = false) (hack : ackHit message = false) :
    (recentContext ≠ "" → 4 ≤ bfCount botName sender recentContext →
      cogShouldRespond botName message sender recentContext personality
          oracle randBF randEnth randBored =
        { shouldRespond := false, reason := "conversation_limit",
          emotion := jsOrS personality.currentEmotion "calm" }) ∧
    ((bfCount botName sender recentContext = 2 ∨
        bfCount botName sender recentContext = 3) → 95/100 ≤ randBF →
      (cogShouldRespond botName message sender recentContext personality
          oracle randBF randEnth randBored).reason ≠ "conversation_limit") := by
  constructor
  · intro hctx h4
    unfold cogShouldRespond
    rw [if_neg (by simp [hfw]), if_neg (by simp [hack]),
        if_pos (bfSkip_true_of_ge4 botName sender recentContext randBF hctx h4)]
  · intro h23 hr
    unfold cogShouldRespond
    rw [if_neg (by simp [hfw]), if_neg (by simp [hack]),
        if_neg (by simp [bfSkip_false_of_lt4 botName sender recentContext
          randBF h23 hr])]
    exact cogOverrides_reason_ne _ _ _ _ _ _ (parseDecision_mem _)

/-- Witness for C3: a six-line context with five alternating Blaze/Alice
turns forces a skip with reason `conversation_limit` even though the oracle
replied `"respond"`. -/
theorem cog_conversation_limit_witness :
    4 ≤ bfCount "Blaze" "Alice"
        "Blaze: hi\nAlice: yo\nBlaze: a\nAlice: b\nBlaze: c\nAlice: d" ∧
    cogShouldRespond "Blaze" "what do we do next" "Alice"
        "Blaze: hi\nAlice: yo\nBlaze: a\nAlice: b\nBlaze: c\nAlice: d" {}
        (some "respond") 0 0 0 =
      { shouldRespond := false, reason := "conversation_limit",
        emotion := "calm" } :=
  ⟨by decide,
   (cog_conversation_limit "Blaze" "what do we do next" "Alice"
      "Blaze: hi\nAlice: yo\nBlaze: a\nAlice: b\nBlaze: c\nAlice: d" {}
      (some "respond") 0 0 0 (by decide) (by decide)).1 (by decide) (by decide)⟩

lemma cog_farewell (botName message sender recentContext : String)
    (personality : Personality) (oracle : Option String)
    (randBF randEnth randBored : ℚ) (hfw : farewellHit message = true) :
    cogShouldRespond botName message sender recentContext personality oracle
        randBF randEnth randBored =
      { shouldRespond := false, reason := "farewell_detected",
        emotion := jsOrS personality.currentEmotion "calm" } := by
  unfold cogShouldRespond
  rw [if_pos hfw]

lemma cog_ack (botName message sender recentContext : String)
    (personality : Personality) (oracle : Option String)
    (randBF randEnth randBored : ℚ) (hfw : farewellHit message = false)
    (hack : ackHit message = true) :
    cogShouldRespond botName message sender recentContext personality oracle
        randBF randEnth randBored =
      { shouldRespond := false, reason := "acknowledgment",
        emotion := jsOrS personality.currentEmotion "calm" } := by
  unfold cogShouldRespond
  rw [if_neg (by simp [hfw]), if_pos hack]

/-- Counterexample for C9: the farewell message `"bye alice"` sent to agent
`"Blaze"` (which it does not name) while `"Alice"` is a known other agent
yields reason `other_bot_mentioned`, not `farewell_detected` — the
other-agent-mention stage precedes farewell detection. -/
theorem coord_farewell_counterexample :
    farewellHit "bye alice" = true ∧
    containsSub (lowerL "Blaze".data) (lowerL "bye alice".data) = false ∧
    coordShouldRespond "Blaze" "Sam" "bye alice" ["Alice"] {} "" none false
        {} 0 0 0 0 0 =
      { shouldRespond := false, urgency := "none",
        reason := "other_bot_mentioned" } :=
  ⟨by decide, by decide, rfl⟩

/-- C9 (amended): for every message that does not contain the recipient's
own name *and does not mention another known agent*: a farewell-phrase hit
yields `shouldRespond = false` with reason `farewell_detected`; otherwise
an acknowledgment hit (message shorter than 50 chars) yields
`shouldRespond = false` with reason `acknowledgment` — in both cases for
every oracle reply and all random draws (the oracle is never consulted). -/
theorem coord_farewell_ack (botName username message : String)
    (otherBots : List String) (personality : Personality)
    (recentContext : String) (oracle : Option String)
    (lastResp : LastResponse) (now randBF randEnth randBored randFB : ℚ)
    (hself : containsSub (lowerL botName.data) (lowerL message.data) = false)
    (hother : mentionsOtherBot botName message otherBots = false) :
    (farewellHit message = true →
      (coordShouldRespond botName username message otherBots personality
          recentContext oracle false lastResp now randBF randEnth randBored
          randFB).shouldRespond = false ∧
      (coordShouldRespond botName username message otherBots personality
          recentContext oracle false lastResp now randBF randEnth randBored
          randFB).reason = "farewell_detected") ∧
    (farewellHit message = false → ackHit message = true →
      (coordShouldRespond botName username message otherBots personality
          recentContext oracle false lastResp now randBF randEnth randBored
          randFB).shouldRespond = false ∧
      (coordShouldRespond botName username message otherBots personality
          recentContext oracle false lastResp now randBF randEnth randBored
          randFB).reason = "acknowledgment") := by
  constructor
  · intro hfw
    unfold coordShouldRespond
    rw [if_neg (by simp [hself]), if_neg (by simp [hother]),
        if_neg (by simp), cog_farewell botName message username recentContext
          personality oracle randBF randEnth randBored hfw]
    exact ⟨rfl, rfl⟩
  · intro hfw hack
    unfold coordShouldRespond
    rw [if_neg (by simp [hself]), if_neg (by simp [hother]),
        if_neg (by simp), cog_ack botName message username recentContext
          personality oracle randBF randEnth randBored hfw hack]
    exact ⟨rfl, rfl⟩

/-- Witness for C9 (amended): `"see you later!"` skips with reason
`farewell_detected` and `"ok, got it"` skips with reason `acknowledgment`,
both for agent `"Blaze"` with `"Alice"` known. -/
theorem coord_farewell_ack_witness :
    ((coordShouldRespond "Blaze" "Sam" "see you later!" ["Alice"] {} ""
        (some "respond") false {} 0 0 0 0 0).shouldRespond = false ∧
     (coordShouldRespond "Blaze" "Sam" "see you later!" ["Alice"] {} ""
        (some "respond") false {} 0 0 0 0 0).reason = "farewell_detected") ∧
    ((coordShouldRespond "Blaze" "Sam" "ok, got it" ["Alice"] {} ""
        (some "respond") false {} 0 0 0 0 0).shouldRespond = false ∧
     (coordShouldRespond "Blaze" "Sam" "ok, got it" ["Alice"] {} ""
        (some "respond") false {} 0 0 0 0 0).reason = "acknowledgment") :=
  ⟨(coord_farewell_ack "Blaze" "Sam" "see you later!" ["Alice"] {} ""
      (some "respond") {} 0 0 0 0 0 (by decide) (by decide)).1 (by decide),
   (coord_farewell_ack "Blaze" "Sam" "ok, got it" ["Alice"] {} ""
      (some "respond") {} 0 0 0 0 0 (by decide) (by decide)).2 (by decide)
      (by decide)⟩

/-- Counterexample for C1: with a failed oracle query (`null`) and the
question message `"what?"`, the decision is `shouldRespond = false` (the
null reply is parsed as the verdict `skip`) — not the claimed
question-mark heuristic `shouldRespond = true`. -/
theorem coord_oracle_null_counterexample :
    incl "what?" "?" = true ∧
    coordShouldRespond "Blaze" "Sam" "what?" [] {} "" none false {} 0 0 0
        0 0 =
      { shouldRespond := false, urgency := "none", reason := "skip",
        emotion := some "curious", emotionSet := some ("curious", 1/2) } :=
  ⟨by decide, rfl⟩

/-- C1 (amended): (a) when the oracle query returns `null`, the verdict
defaults to `skip` — `shouldRespond = false` absent the emotion-driven
overrides — rather than any heuristic; (b) the pure heuristic
(`simpleFallback`) runs only when the cognitive-engine call throws; and
(c) that heuristic, unless another bot answered within the last 5 s,
responds to any message containing a question mark with the *normal* delay
band, and otherwise responds with fixed probability 20% with the longer
(slow) delay band. -/
theorem coord_oracle_failure_amended
    (botName username message sender recentContext : String)
    (otherBots : List String) (personality : Personality)
    (oracle : Option String) (lastResp : LastResponse)
    (now randBF randEnth randBored randFB : ℚ) :
    (farewellHit message = false → ackHit message = false →
      bfSkip botName sender recentContext randBF = false →
      quickEmotionCheck message botName
          (jsOrS personality.currentEmotion "calm") ∉
        (["angry", "frustrated", "annoyed", "irritated", "happy",
          "excited", "playful"] : List String) →
      cogShouldRespond botName message sender recentContext personality none
          randBF randEnth randBored =
        { shouldRespond := false, reason := "skip",
          emotion := quickEmotionCheck message botName
            (jsOrS personality.currentEmotion "calm") }) ∧
    (containsSub (lowerL botName.data) (lowerL message.data) = false →
      mentionsOtherBot botName message otherBots = false →
      coordShouldRespond botName username message otherBots personality
          recentContext oracle true lastResp now randBF randEnth randBored
          randFB = simpleFallback botName message lastResp now randFB) ∧
    (¬(now - lastResp.timestamp < 5000 ∧ lastResp.responder ≠ some botName) →
      (incl message "?" = true →
        simpleFallback botName message lastResp now randFB =
          { shouldRespond := true, urgency := "normal",
            reason := "question" }) ∧
      (incl message "?" = false →
        (randFB < 1/5 →
          simpleFallback botName message lastResp now randFB =
            { shouldRespond := true, urgency := "slow",
              reason := "random" }) ∧
        (¬(randFB < 1/5) →
          simpleFallback botName message lastResp now randFB =
            { shouldRespond := false, urgency := "none",
              reason := "skipped" }))) := by
  refine ⟨?_, ?_, ?_⟩
  · intro hfw hack hbf hemo
    unfold cogShouldRespond
    rw [if_neg (by simp [hfw]), if_neg (by simp [hack]),
        if_neg (by simp [hbf])]
    unfold cogStage3
    rw [show parseDecision (rawOracle none) = "skip" from by decide]
    generalize quickEmotionCheck message botName
      (jsOrS personality.currentEmotion "calm") = emo at hemo ⊢
    simp only [List.mem_cons, List.not_mem_nil, or_false, not_or] at hemo
    obtain ⟨e1, e2, e3, e4, e5, e6, e7⟩ := hemo
    unfold cogOverrides
    rw [if_neg ?hp, if_neg ?he, if_neg ?hb]
    case hp =>
      rintro ⟨-, h | h | h | h, -⟩
      exacts [e1 h, e2 h, e3 h, e4 h]
    case he =>
      rintro ⟨-, h | h | h, -⟩
      exacts [e5 h, e6 h, e7 h]
    case hb =>
      rintro ⟨h, -⟩
      exact absurd h (by decide)
    rfl
  · intro hself hother
    unfold coordShouldRespond
    rw [if_neg (by simp [hself]), if_neg (by simp [hother]), if_pos rfl]
  · intro hns
    refine ⟨fun hq => ?_, fun hq => ⟨fun hr => ?_, fun hr => ?_⟩⟩ <;>
      unfold simpleFallback
    · rw [if_neg hns, if_pos hq]
    · rw [if_neg hns, if_neg (by simp [hq]), if_pos hr]
    · rw [if_neg hns, if_neg (by simp [hq]), if_neg hr]

/-- Witness for C1 (amended): concrete runs through all three parts —
a null-oracle decision landing on `skip`, the throw-path equalling
`simpleFallback`, and the fallback answering a question with the normal
band. -/
theorem coord_oracle_failure_amended_witness :
    cogShouldRespond "Blaze" "tell me something new" "Sam" "" {} none 0 0 0 =
      { shouldRespond := false, reason := "skip", emotion := "calm" } ∧
    coordShouldRespond "Blaze" "Sam" "tell me something new" ["Alice"] {} ""
        none true { responder := none, timestamp := 0 } 6000 0 0 0 (1/2) =
      simpleFallback "Blaze" "tell me something new"
        { responder := none, timestamp := 0 } 6000 (1/2) ∧
    simpleFallback "Blaze" "any ideas?" { responder := none, timestamp := 0 }
        6000 (1/2) =
      { shouldRespond := true, urgency := "normal", reason := "question" } :=
  ⟨(coord_oracle_failure_amended "Blaze" "Sam" "tell me something new" "Sam"
      "" ["Alice"] {} none { responder := none, timestamp := 0 } 6000 0 0 0
      (1/2)).1 (by decide) (by decide) (by decide) (by decide),
   (coord_oracle_failure_amended "Blaze" "Sam" "tell me something new" "Sam"
      "" ["Alice"] {} none { responder := none, timestamp := 0 } 6000 0 0 0
      (1/2)).2.1 (by decide) (by decide),
   ((coord_oracle_failure_amended "Blaze" "Sam" "any ideas?" "Sam" ""
      ["Alice"] {} none { responder := none, timestamp := 0 } 6000 0 0 0
      (1/2)).2.2 (by norm_num)).1 (by decide)⟩

/-! ## Command relay (`src/mindcraft/command_relay.js`, `CommandRelay`) -/

/-- Association-list lookup, mirroring `Map.prototype.get`. -/
def lookupA {β : Type} : List (String × β) → String → Option β
  | [], _ => none
  | (k', v) :: rest, k => if k' = k then some v else lookupA rest k

/-- Association-list insert/overwrite, mirroring `Map.prototype.set`
(update in place when present, append when absent). -/
def setA {β : Type} (m : List (String × β)) (k : String) (v : β) :
    List (String × β) :=
  match m with
  | [] => [(k, v)]
  | (k', v') :: rest => if k' = k then (k, v) :: rest else (k', v') :: setA rest k v

lemma setA_of_lookup_none {β : Type} (m : List (String × β)) (k : String)
    (v : β) (h : lookupA m k = none) : setA m k v = m ++ [(k, v)] := by
  induction m with
  | nil => rfl
  | cons p rest ih =>
    unfold lookupA at h
    unfold setA
    split_ifs with hk
    · rw [hk] at h; simp at h
    · rw [if_neg hk] at h
      rw [ih h]
      rfl

lemma lookupA_append_left_none {β : Type} (m₁ m₂ : List (String × β))
    (k : String) (h : lookupA m₁ k = none) :
    lookupA (m₁ ++ m₂) k = lookupA m₂ k := by
  induction m₁ with
  | nil => rfl
  | cons p rest ih =>
    obtain ⟨k', v⟩ := p
    rw [List.cons_append]
    unfold lookupA at h
    by_cases hk : k' = k
    · rw [if_pos hk] at h
      simp at h
    · rw [if_neg hk] at h
      show (if k' = k then some v else lookupA (rest ++ m₂) k) = lookupA m₂ k
      rw [if_neg hk]
      exact ih h

/-- The relay's per-worker record (`this.workers` values). -/
structure WorkerInfo where
  leader : String
  status : String := "registered"
  lastUpdate : ℚ := 0
  position : Option String := none
  health : ℚ := 20
  food : ℚ := 20
deriving DecidableEq, Repr

/-- A `CommandRecord` in the relay's command queue. -/
structure CommandRecord where
  leader : String
  worker : String
  command : String
  args : String
  timestamp : ℚ
  status : String
deriving DecidableEq, Repr

/-- The relay's per-leader record (`this.leaders` values: a socket plus a
worker set; the socket's existence is what the status-forwarding path
checks). -/
structure LeaderInfo where
  workerSet : List String := []
deriving DecidableEq, Repr

/-- The `CommandRelay` state: workers map, leaders map, command queue and
the per-leader worker name lists. -/
structure RelayState where
  workers : List (String × WorkerInfo) := []
  leaders : List (String × LeaderInfo) := []
  commandQueue : List (String × CommandRecord) := []
  workersByLeader : List (String × List String) := []
deriving DecidableEq, Repr

/-- Side effects the relay emits (socket sends and scheduled cleanups). -/
inductive RelayEmit
  | workerCommand (worker command args commandId : String)
  | leaderStatusUpdate (leader worker : String)
  | scheduleCleanup (commandId : String)
deriving DecidableEq, Repr

/-- The result object of `routeCommand`. -/
structure RouteResult where
  success : Bool
  error : Option String := none
  commandId : Option String := none
deriving DecidableEq, Repr

/-- Source `CommandRelay.routeCommand(leaderName, workerName, command, args,
commandId)`: fail on unknown worker, fail on wrong leader, otherwise record
a `sent` CommandRecord and forward to the worker. -/
def routeCommand (st : RelayState)
    (leaderName workerName command args commandId : String) (now : ℚ) :
    RelayState × RouteResult × List RelayEmit :=
  match lookupA st.workers workerName with
  | none => (st, { success := false, error := some "Worker not found" }, [])
  | some w =>
    if w.leader ≠ leaderName then
      (st, { success := false,
             error := some "Worker not assigned to this leader" }, [])
    else
      let newRec : CommandRecord :=
        { leader := leaderName, worker := workerName, command := command,
          args := args, timestamp := now, status := "sent" }
      ({ st with commandQueue := setA st.commandQueue commandId newRec },
       { success := true, commandId := some commandId },
       [.workerCommand workerName command args commandId])

/-- The worker list `routeGroupCommand` fans out over
(`this.workersByLeader.get(leaderName) || []`). -/
def workersOf (st : RelayState) (leaderName : String) : List String :=
  (lookupA st.workersByLeader leaderName).getD []

/-- The `forEach` loop of `routeGroupCommand`, carried out from index
`idx`: route `commandId-idx`, `commandId-(idx+1)`, ... to each worker in
turn, collecting the per-worker results. -/
def routeGroupAux (st : RelayState) (leaderName command args commandId : String)
    (now : ℚ) : List String → ℕ →
    RelayState × List (String × RouteResult) × List RelayEmit
  | [], _ => (st, [], [])
  | w :: rest, idx =>
    let step := routeCommand st leaderName w command args
      (commandId ++ "-" ++ Nat.repr idx) now
    let next := routeGroupAux step.1 leaderName command args commandId now
      rest (idx + 1)
    (next.1, (w, step.2.1) :: next.2.1, step.2.2 ++ next.2.2)

/-- Source `CommandRelay.routeGroupCommand(leaderName, command, args, commandId)`. -/
def routeGroupCommand (st : RelayState)
    (leaderName command args commandId : String) (now : ℚ) :
    RelayState × List (String × RouteResult) × List RelayEmit :=
  routeGroupAux st leaderName command args commandId now
    (workersOf st leaderName) 0

/-- A worker status report (`status` objects sent over `worker-status`);
absent fields are `none` and JS truthiness governs their use. -/
structure StatusReport where
  status : String := ""
  position : Option String := none
  health : Option ℚ := none
  food : Option ℚ := none
  commandId : Option String := none
deriving DecidableEq, Repr

/-- Source `CommandRelay.updateWorkerStatus(workerName, status)`: update the
worker's live fields, update (and possibly schedule cleanup of) the matching
CommandRecord when a truthy `commandId` is present, and forward the status
to the worker's leader.  Unknown workers fall through the `if (worker)`
guard: no mutation and no emission. -/
def updateWorkerStatus (st : RelayState) (workerName : String)
    (r : StatusReport) (now : ℚ) : RelayState × List RelayEmit :=
  match lookupA st.workers workerName with
  | none => (st, [])
  | some w =>
    let w' : WorkerInfo :=
      { w with status := r.status, lastUpdate := now,
               position := jsOrOpt r.position w.position,
               health := r.health.getD w.health,
               food := r.food.getD w.food }
    let st1 := { st with workers := setA st.workers workerName w' }
    let upd :=
      match r.commandId with
      | none => (st1, ([] : List RelayEmit))
      | some cid =>
        if cid = "" then (st1, [])
        else
          match lookupA st1.commandQueue cid with
          | none => (st1, [])
          | some cmd =>
            let cmd' : CommandRecord := { cmd with status := r.status }
            ({ st1 with commandQueue := setA st1.commandQueue cid cmd' },
             if r.status = "completed" ∨ r.status = "error" then
               [.scheduleCleanup cid]
             else [])
    let fwd : List RelayEmit :=
      match lookupA st.leaders w.leader with
      | some _ => [.leaderStatusUpdate w.leader workerName]
      | none => []
    (upd.1, upd.2 ++ fwd)

/-- Is `w` a registered worker currently assigned to `leaderName`? -/
def assignedTo (st : RelayState) (leaderName w : String) : Bool :=
  match lookupA st.workers w with
  | some info => info.leader = leaderName
  | none => false

/-- The CommandRecords a group command is expected to create for the worker
list `ws` starting at sub-index `idx`: keys `commandId-idx`,
`commandId-(idx+1)`, … each mapping to a fresh `sent` record. -/
def groupEntries (leaderName command args commandId : String) (now : ℚ) :
    List String → ℕ → List (String × CommandRecord)
  | [], _ => []
  | w :: rest, idx =>
    (commandId ++ "-" ++ Nat.repr idx,
     { leader := leaderName, worker := w, command := command, args := args,
       timestamp := now, status := "sent" }) ::
    groupEntries leaderName command args commandId now rest (idx + 1)

/-- The per-worker results a group command is expected to return. -/
def groupResults (commandId : String) :
    List String → ℕ → List (String × RouteResult)
  | [], _ => []
  | w :: rest, idx =>
    (w, { success := true,
          commandId := some (commandId ++ "-" ++ Nat.repr idx) }) ::
    groupResults commandId rest (idx + 1)

/-- The derived sub-identifiers `commandId-idx`, `commandId-(idx+1)`, … -/
def groupKeys (commandId : String) : List String → ℕ → List String
  | [], _ => []
  | _ :: rest, idx =>
    (commandId ++ "-" ++ Nat.repr idx) :: groupKeys commandId rest (idx + 1)

lemma groupEntries_length (leaderName command args commandId : String)
    (now : ℚ) (ws : List String) : ∀ idx,
    (groupEntries leaderName command args commandId now ws idx).length =
      ws.length := by
  induction ws with
  | nil => intro idx; rfl
  | cons w rest ih =>
    intro idx
    unfold groupEntries
    rw [List.length_cons, List.length_cons, ih]

lemma groupResults_length (commandId : String) (ws : List String) : ∀ idx,
    (groupResults commandId ws idx).length = ws.length := by
  induction ws with
  | nil => intro idx; rfl
  | cons w rest ih =>
    intro idx
    unfold groupResults
    rw [List.length_cons, List.length_cons, ih]

lemma groupKeys_eq_map_fst (leaderName command args commandId : String)
    (now : ℚ) (ws : List String) : ∀ idx,
    groupKeys commandId ws idx =
      (groupEntries leaderName command args commandId now ws idx).map
        Prod.fst := by
  induction ws with
  | nil => intro idx; rfl
  | cons w rest ih =>
    intro idx
    unfold groupKeys groupEntries
    rw [List.map_cons, ih]

lemma lookupA_singleton_ne {β : Type} (key k : String) (v : β)
    (h : key ≠ k) : lookupA [(key, v)] k = none := by
  unfold lookupA
  rw [if_neg h]
  rfl

lemma routeGroupAux_spec (leaderName command args commandId : String)
    (now : ℚ) (ws : List String) : ∀ (st : RelayState) (idx : ℕ),
    (∀ w ∈ ws, assignedTo st leaderName w = true) →
    (groupKeys commandId ws idx).Nodup →
    (∀ k ∈ groupKeys commandId ws idx, lookupA st.commandQueue k = none) →
    (routeGroupAux st leaderName command args commandId now ws idx).1 =
      { st with commandQueue := st.commandQueue ++
          groupEntries leaderName command args commandId now ws idx } ∧
    (routeGroupAux st leaderName command args commandId now ws idx).2.1 =
      groupResults commandId ws idx := by
  induction ws with
  | nil =>
    intro st idx _ _ _
    exact ⟨by simp [routeGroupAux, groupEntries], rfl⟩
  | cons w rest ih =>
    intro st idx hw hnd hf
    have hass := hw w (List.mem_cons_self _ _)
    unfold assignedTo at hass
    cases hl : lookupA st.workers w with
    | none => rw [hl] at hass; simp at hass
    | some info =>
      rw [hl] at hass
      have hlead : info.leader = leaderName := by
        simpa using hass
      have hkey : lookupA st.commandQueue (commandId ++ "-" ++ Nat.repr idx) =
          none := hf _ (List.mem_cons_self _ _)
      -- the first routeCommand call succeeds and appends one fresh record
      have hstep : routeCommand st leaderName w command args
          (commandId ++ "-" ++ Nat.repr idx) now =
        ({ st with commandQueue := st.commandQueue ++
            [(commandId ++ "-" ++ Nat.repr idx,
              { leader := leaderName, worker := w, command := command,
                args := args, timestamp := now, status := "sent" })] },
         { success := true,
           commandId := some (commandId ++ "-" ++ Nat.repr idx) },
         [.workerCommand w command args (commandId ++ "-" ++ Nat.repr idx)]) := by
        unfold routeCommand
        rw [hl]
        dsimp only
        rw [if_neg (fun hne => hne hlead),
            setA_of_lookup_none _ _ _ hkey]
      -- hypotheses for the recursive call on the updated state
      have hnd' : (groupKeys commandId rest (idx + 1)).Nodup := by
        have := hnd
        unfold groupKeys at this
        exact this.of_cons
      have hhead : (commandId ++ "-" ++ Nat.repr idx) ∉
          groupKeys commandId rest (idx + 1) := by
        have := hnd
        unfold groupKeys at this
        exact (List.nodup_cons.mp this).1
      unfold routeGroupAux
      rw [hstep]
      dsimp only
      have hw' : ∀ x ∈ rest, assignedTo
          ({ st with commandQueue := st.commandQueue ++
            [(commandId ++ "-" ++ Nat.repr idx,
              { leader := leaderName, worker := w, command := command,
                args := args, timestamp := now, status := "sent" })] } :
            RelayState) leaderName x = true := by
        intro x hx
        exact hw x (List.mem_cons_of_mem _ hx)
      have hf' : ∀ k ∈ groupKeys commandId rest (idx + 1),
          lookupA (st.commandQueue ++
            [(commandId ++ "-" ++ Nat.repr idx,
              { leader := leaderName, worker := w, command := command,
                args := args, timestamp := now, status := "sent" })]) k =
            none := by
        intro k hk
        rw [lookupA_append_left_none _ _ _
          (hf k (List.mem_cons_of_mem _ hk))]
        exact lookupA_singleton_ne _ _ _ (fun he => hhead (he ▸ hk))
      obtain ⟨hq, hr⟩ := ih _ (idx + 1) hw' hnd' hf'
      refine ⟨?_, ?_⟩
      · rw [hq, groupEntries]
        simp [List.append_assoc]
      · rw [hr, groupResults]

/-- C5: routing a command to an unregistered worker name fails and leaves
the command queue (indeed the whole relay state) unchanged; and a group
command issued by a leader whose currently-assigned workers are all
registered to it creates exactly N = (number of assigned workers)
CommandRecords with identifiers `commandId-0` … `commandId-(N-1)` appended
to the queue, returning one per-worker routing result each (assuming, as in
any real run, that the derived sub-identifiers are fresh). -/
theorem commandRelay_route_spec (st : RelayState)
    (leaderName command args commandId : String) (now : ℚ) :
    (∀ workerName, lookupA st.workers workerName = none →
      routeCommand st leaderName workerName command args commandId now =
        (st, { success := false, error := some "Worker not found" }, [])) ∧
    ((∀ w ∈ workersOf st leaderName, assignedTo st leaderName w = true) →
     (groupKeys commandId (workersOf st leaderName) 0).Nodup →
     (∀ k ∈ groupKeys commandId (workersOf st leaderName) 0,
       lookupA st.commandQueue k = none) →
     (routeGroupCommand st leaderName command args commandId now).1 =
       { st with commandQueue := (st.commandQueue ++
           groupEntries leaderName command args commandId now
             (workersOf st leaderName) 0) } ∧
     (routeGroupCommand st leaderName command args commandId now).2.1 =
       groupResults commandId (workersOf st leaderName) 0 ∧
     (groupEntries leaderName command args commandId now
       (workersOf st leaderName) 0).length =
         (workersOf st leaderName).length ∧
     (groupResults commandId (workersOf st leaderName) 0).length =
       (workersOf st leaderName).length ∧
     groupKeys commandId (workersOf st leaderName) 0 =
       (groupEntries leaderName command args commandId now
         (workersOf st leaderName) 0).map Prod.fst) := by
  constructor
  · intro workerName h
    unfold routeCommand
    rw [h]
  · intro hw hnd hf
    obtain ⟨hq, hr⟩ := routeGroupAux_spec leaderName command args commandId
      now (workersOf st leaderName) st 0 hw hnd hf
    exact ⟨hq, hr,
      groupEntries_length leaderName command args commandId now _ 0,
      groupResults_length commandId _ 0,
      groupKeys_eq_map_fst leaderName command args commandId now _ 0⟩

/-- The concrete relay state of the C5 witness: leader `"L"` with two
assigned, registered workers. -/
def relaySt : RelayState :=
  { workers := [("wA", { leader := "L" }), ("wB", { leader := "L" })],
    leaders := [("L", {})],
    commandQueue := [],
    workersByLeader := [("L", ["wA", "wB"])] }

/-- Witness for C5: routing to the unregistered `"ghost"` fails leaving the
state unchanged, and a group command to `"L"` (two workers) appends exactly
the records `g-0`, `g-1` and returns two per-worker results. -/
theorem commandRelay_route_spec_witness :
    groupKeys "g" (workersOf relaySt "L") 0 = ["g-0", "g-1"] ∧
    routeCommand relaySt "L" "ghost" "mine" "stone" "g" 0 =
      (relaySt, { success := false, error := some "Worker not found" }, []) ∧
    (routeGroupCommand relaySt "L" "mine" "stone" "g" 0).1 =
      { relaySt with commandQueue := (relaySt.commandQueue ++
          groupEntries "L" "mine" "stone" "g" 0 (workersOf relaySt "L") 0) } ∧
    (routeGroupCommand relaySt "L" "mine" "stone" "g" 0).2.1 =
      groupResults "g" (workersOf relaySt "L") 0 :=
  ⟨by decide,
   (commandRelay_route_spec relaySt "L" "mine" "stone" "g" 0).1 "ghost"
     (by decide),
   ((commandRelay_route_spec relaySt "L" "mine" "stone" "g" 0).2
     (by decide) (by decide) (by decide)).1,
   ((commandRelay_route_spec relaySt "L" "mine" "stone" "g" 0).2
     (by decide) (by decide) (by decide)).2.1⟩

/-- C10: `updateWorkerStatus` for a worker name with no WorkerRecord is a
silent no-op — the state (workers map and command queue included) is
unchanged and nothing is emitted: no leader notification, no cleanup timer. -/
theorem updateWorkerStatus_unknown_noop (st : RelayState)
    (workerName : String) (r : StatusReport) (now : ℚ)
    (h : lookupA st.workers workerName = none) :
    updateWorkerStatus st workerName r now = (st, []) := by
  unfold updateWorkerStatus
  rw [h]

/-- Witness for C10: reporting status for the unknown `"ghost"` leaves the
witness relay state untouched and emits nothing. -/
theorem updateWorkerStatus_unknown_noop_witness :
    lookupA relaySt.workers "ghost" = none ∧
    updateWorkerStatus relaySt "ghost"
        { status := "completed", commandId := some "g-0" } 7 = (relaySt, []) :=
  ⟨by decide,
   updateWorkerStatus_unknown_noop relaySt "ghost"
     { status := "completed", commandId := some "g-0" } 7 (by decide)⟩

/-! ## Tick scheduler (`src/agent/agent.js`, `Agent._startThoughtTick` /
`_processThoughtTick` / `queueContext`) -/

/-- A `PendingContextItem`: the tagged union {worker_report, chat, event}
queued by `queueContext`. -/
inductive ContextItem
  | workerReport (worker status details : String)
  | chat (source message : String)
  | event (ev details : String)
deriving DecidableEq, Repr

/-- Source `c.type === 'worker_report'`. -/
def isWR : ContextItem → Bool
  | .workerReport .. => true
  | _ => false

/-- Source `c.type === 'chat'`. -/
def isChat : ContextItem → Bool
  | .chat .. => true
  | _ => false

/-- Source `c.type === 'event'`. -/
def isEvent : ContextItem → Bool
  | .event .. => true
  | _ => false

/-- The `[WORKER REPORTS - n updates]` section of the batched summary. -/
def wrSection (l : List ContextItem) : String :=
  if l = [] then ""
  else "\n[WORKER REPORTS - " ++ Nat.repr l.length ++ " updates]\n" ++
    String.join (l.map (fun c =>
      match c with
      | .workerReport w s d => "- " ++ w ++ ": " ++ s ++ " " ++ d ++ "\n"
      | _ => ""))

/-- The `[CHAT MESSAGES - n messages]` section. -/
def chatSection (l : List ContextItem) : String :=
  if l = [] then ""
  else "\n[CHAT MESSAGES - " ++ Nat.repr l.length ++ " messages]\n" ++
    String.join (l.map (fun c =>
      match c with
      | .chat src m => "- " ++ src ++ ": \"" ++ m ++ "\"\n"
      | _ => ""))

/-- The `[EVENTS - n events]` section. -/
def evSection (l : List ContextItem) : String :=
  if l = [] then ""
  else "\n[EVENTS - " ++ Nat.repr l.length ++ " events]\n" ++
    String.join (l.map (fun c =>
      match c with
      | .event e d => "- " ++ e ++ ": " ++ d ++ "\n"
      | _ => ""))

/-- The `[YOUR WORKERS: …]` section appended when the leader has assigned
workers. -/
def workersSection (assignedWorkers : List String) : String :=
  if assignedWorkers = [] then ""
  else "\n[YOUR WORKERS: " ++ String.intercalate ", " assignedWorkers ++
    "]\n" ++ "Use !commandWorker(worker_name, command, args) or " ++
    "!commandGroup(command, args) to direct workers.\n"

/-- The consolidated `batchedMessage` of `_processThoughtTick`. -/
def buildBatched (batch : List ContextItem) (assignedWorkers : List String) :
    String :=
  wrSection (batch.filter isWR) ++ chatSection (batch.filter isChat) ++
    evSection (batch.filter isEvent) ++ workersSection assignedWorkers

/-- The leader-local scheduler state: the pending-context queue (items with
their enqueue timestamps) and a counter of decision-oracle calls
(`promptConvo` invocations) made so far, which the shallow embedding uses
to count oracle traffic. -/
structure LeaderState where
  isLeader : Bool := true
  pendingContext : List (ContextItem × ℚ) := []
  oracleCalls : ℕ := 0
deriving DecidableEq, Repr

/-- Source `Agent.queueContext(contextItem)`: leaders append to the queue with a
timestamp; for non-leaders it is a no-op. -/
def queueContext (st : LeaderState) (item : ContextItem) (now : ℚ) :
    LeaderState :=
  if st.isLeader then
    { st with pendingContext := st.pendingContext ++ [(item, now)] }
  else st

/-- Enqueue a whole list of context events between two ticks. -/
def enqueueAll (st : LeaderState) (items : List (ContextItem × ℚ)) :
    LeaderState :=
  items.foldl (fun s p => queueContext s p.1 p.2) st

/-- Source `Agent._processThoughtTick()`: drain the queue, build the consolidated
summary, and make exactly one oracle-backed call when the summary is
non-blank. -/
def processThoughtTick (st : LeaderState) (assignedWorkers : List String) :
    LeaderState :=
  if st.pendingContext = [] then st
  else
    let batch := st.pendingContext.map Prod.fst
    let st1 : LeaderState := { st with pendingContext := [] }
    if jsTrimL (buildBatched batch assignedWorkers).data ≠ [] then
      { st1 with oracleCalls := st1.oracleCalls + 1 }
    else st1

/-- One firing of the interval timer installed by `_startThoughtTick`:
an empty queue is a no-op, otherwise `_processThoughtTick` runs. -/
def thoughtTick (st : LeaderState) (assignedWorkers : List String) :
    LeaderState :=
  if st.pendingContext.length = 0 then st
  else processThoughtTick st assignedWorkers

lemma exists_nonws_dropWhile (l : List Char)
    (h : ∃ c ∈ l, isWS c = false) :
    ∃ c ∈ l.dropWhile isWS, isWS c = false := by
  induction l with
  | nil => simp at h
  | cons a t ih =>
    by_cases ha : isWS a = true
    · rw [List.dropWhile_cons_of_pos ha]
      obtain ⟨c, hc, hcw⟩ := h
      rcases List.mem_cons.mp hc with rfl | hct
      · rw [ha] at hcw; exact absurd hcw (by decide)
      · exact ih ⟨c, hct, hcw⟩
    · rw [List.dropWhile_cons_of_neg ha]
      exact h

lemma jsTrimL_ne_nil (l : List Char) (h : ∃ c ∈ l, isWS c = false) :
    jsTrimL l ≠ [] := by
  unfold jsTrimL
  have h1 := exists_nonws_dropWhile l h
  have h2 : ∃ c ∈ (l.dropWhile isWS).reverse, isWS c = false := by
    obtain ⟨c, hc, hw⟩ := h1
    exact ⟨c, List.mem_reverse.mpr hc, hw⟩
  obtain ⟨c, hc, -⟩ := exists_nonws_dropWhile _ h2
  exact List.ne_nil_of_mem (List.mem_reverse.mpr hc)

lemma mem_buildBatched_bracket (batch : List ContextItem)
    (aw : List String) (h : batch ≠ []) :
    '[' ∈ (buildBatched batch aw).data := by
  obtain ⟨c, rest, rfl⟩ := List.exists_cons_of_ne_nil h
  unfold buildBatched
  rw [String.data_append, String.data_append, String.data_append]
  cases c with
  | workerReport w s d =>
    apply List.mem_append_left
    apply List.mem_append_left
    apply List.mem_append_left
    have hne : ((ContextItem.workerReport w s d :: rest).filter isWR) ≠ [] :=
      List.ne_nil_of_mem (List.mem_filter.mpr ⟨List.mem_cons_self _ _, rfl⟩)
    unfold wrSection
    rw [if_neg hne, String.data_append, String.data_append,
        String.data_append]
    apply List.mem_append_left
    apply List.mem_append_left
    apply List.mem_append_left
    decide
  | chat src m =>
    apply List.mem_append_left
    apply List.mem_append_left
    apply List.mem_append_right
    have hne : ((ContextItem.chat src m :: rest).filter isChat) ≠ [] :=
      List.ne_nil_of_mem (List.mem_filter.mpr ⟨List.mem_cons_self _ _, rfl⟩)
    unfold chatSection
    rw [if_neg hne, String.data_append, String.data_append,
        String.data_append]
    apply List.mem_append_left
    apply List.mem_append_left
    apply List.mem_append_left
    decide
  | event e d =>
    apply List.mem_append_left
    apply List.mem_append_right
    have hne : ((ContextItem.event e d :: rest).filter isEvent) ≠ [] :=
      List.ne_nil_of_mem (List.mem_filter.mpr ⟨List.mem_cons_self _ _, rfl⟩)
    unfold evSection
    rw [if_neg hne, String.data_append, String.data_append,
        String.data_append]
    apply List.mem_append_left
    apply List.mem_append_left
    apply List.mem_append_left
    decide

lemma processThoughtTick_spec (st : LeaderState) (aw : List String)
    (h : st.pendingContext ≠ []) :
    processThoughtTick st aw =
      { st with pendingContext := [], oracleCalls := st.oracleCalls + 1 } := by
  unfold processThoughtTick
  rw [if_neg h]
  have hb : (st.pendingContext.map Prod.fst) ≠ [] := by
    simpa using h
  have hmem : '[' ∈ (buildBatched (st.pendingContext.map Prod.fst) aw).data :=
    mem_buildBatched_bracket _ aw hb
  rw [if_pos (jsTrimL_ne_nil _ ⟨'[', hmem, by decide⟩)]

lemma enqueueAll_leader (items : List (ContextItem × ℚ)) :
    ∀ st : LeaderState, st.isLeader = true →
    enqueueAll st items =
      { st with pendingContext := st.pendingContext ++ items } := by
  induction items with
  | nil =>
    intro st h
    show st = _
    simp
  | cons p rest ih =>
    intro st h
    show enqueueAll (queueContext st p.1 p.2) rest = _
    unfold queueContext
    rw [if_pos h,
        ih { st with pendingContext := st.pendingContext ++ [(p.1, p.2)] } h]
    simp

/-- C4: a thought tick fired with an empty pending-context queue performs
no oracle call and changes nothing, while enqueueing K ≥ 1 context events
between ticks yields exactly one oracle call at the next tick — never K —
and leaves the queue fully drained. -/
theorem thoughtTick_one_oracle_call (st : LeaderState) (aw : List String)
    (items : List (ContextItem × ℚ)) :
    (st.pendingContext = [] → thoughtTick st aw = st) ∧
    (st.isLeader = true → st.pendingContext = [] → items ≠ [] →
      (thoughtTick (enqueueAll st items) aw).oracleCalls =
        st.oracleCalls + 1 ∧
      (thoughtTick (enqueueAll st items) aw).pendingContext = []) := by
  constructor
  · intro hp
    unfold thoughtTick
    rw [if_pos (by simp [hp])]
  · intro hl hp hne
    rw [enqueueAll_leader items st hl, hp]
    have hne' : (({ st with pendingContext := [] ++ items } :
        LeaderState)).pendingContext ≠ [] := by
      simpa using hne
    unfold thoughtTick
    rw [if_neg (by simpa using hne'),
        processThoughtTick_spec _ aw hne']
    exact ⟨rfl, rfl⟩

/-- Witness for C4: an idle tick is a no-op, and two queued events (a chat
and a world event) produce exactly one oracle call with the queue drained. -/
theorem thoughtTick_one_oracle_call_witness :
    thoughtTick ({} : LeaderState) ["wA"] = {} ∧
    (thoughtTick (enqueueAll {} [(.chat "Sam" "hi", 5), (.event "rain" "", 6)])
      []).oracleCalls = 1 ∧
    (thoughtTick (enqueueAll {} [(.chat "Sam" "hi", 5), (.event "rain" "", 6)])
      []).pendingContext = [] :=
  ⟨(thoughtTick_one_oracle_call {} ["wA"] []).1 rfl,
   ((thoughtTick_one_oracle_call {} []
       [(.chat "Sam" "hi", 5), (.event "rain" "", 6)]).2 rfl rfl
     (by decide)).1,
   ((thoughtTick_one_oracle_call {} []
       [(.chat "Sam" "hi", 5), (.event "rain" "", 6)]).2 rfl rfl
     (by decide)).2⟩

end Cortex
